import Mathlib

/-!
Verification of the parse_ncm plugin core (URL classification, short-link
resolution, upstream aggregation, HTTP retry layer) against its
natural-language specification.  Python code is shallowly embedded: JSON
payloads become an inductive `Value`, Python dicts become insertion-ordered
association lists, stateful/network code takes an explicit environment of
call outcomes, and raised exceptions become an `Exc` error type returned
through `Except`.
-/

namespace ParseNcm

/-- JSON-ish values as handled by the aggregator (`json.loads` output plus the
values the mappers construct).  Python floats do not occur in the mapped
fields, so they are not modelled. -/
inductive Value where
  | str (s : String)
  | int (n : Int)
  | bool (b : Bool)
  | list (xs : List Value)
  | dict (kvs : List (String × Value))
  | null
deriving Repr, BEq

/-- A Python dict with string keys, as an insertion-ordered association list.
Well-formed dicts (those produced by `json.loads` or dict displays) have no
duplicate keys; `keysNodup` states that. -/
abbrev Dict := List (String × Value)

/-- Key lookup, first occurrence (the only occurrence in a well-formed dict). -/
def dlookup : Dict → String → Option Value
  | [], _ => none
  | (k', v) :: rest, k => if k' = k then some v else dlookup rest k

/-- `d[k] = v` in Python: replace the value at an existing key in place,
otherwise append the new key at the end (insertion order preserved). -/
def dinsert : Dict → String → Value → Dict
  | [], k, v => [(k, v)]
  | (k', v') :: rest, k, v =>
      if k' = k then (k, v) :: rest else (k', v') :: dinsert rest k v

/-- Add all entries of `b` into `a` in order, as `dict.update` / the `**b`
part of a dict display does. -/
def dupdate (a b : Dict) : Dict := b.foldl (fun acc p => dinsert acc p.1 p.2) a

/-- The Python dict display over several unpacked dicts,
dropping each payload into a fresh dict from left to right:
so a later payload overrides an earlier one keywise. -/
def pyDictDisplay (ds : List Dict) : Dict := ds.foldl dupdate []

/-- The dict has no duplicate keys (true of every dict a Python runtime can
actually hold). -/
def keysNodup (d : Dict) : Prop := (d.map Prod.fst).Nodup

instance (d : Dict) : Decidable (keysNodup d) := by
  unfold keysNodup; infer_instance

/-- The merge step of `NcmApiService.song_detail`
(api_service.py line 218): the four per-call payloads
(song detail, comment metadata, lyrics, comment thread) are combined with
a dict display, later calls overriding earlier ones. -/
def song_detail_merge (ret0 ret1 ret2 ret3 : Dict) : Dict :=
  pyDictDisplay [ret0, ret1, ret2, ret3]

/-- The merge step of `NcmApiService.album_detail`
(api_service.py line 232): album detail, comment metadata,
comment thread. -/
def album_detail_merge (ret0 ret1 ret3 : Dict) : Dict :=
  pyDictDisplay [ret0, ret1, ret3]

theorem dlookup_eq_none_of_not_mem (d : Dict) (k : String)
    (h : k ∉ d.map Prod.fst) : dlookup d k = none := by
  induction d with
  | nil => simp [dlookup]
  | cons hd tl ih =>
      obtain ⟨k0, v0⟩ := hd
      have hne : k0 ≠ k := by
        intro he; exact h (by simp [he])
      have : k ∉ tl.map Prod.fst := by
        intro hm; exact h (by simp [hm])
      simp [dlookup, hne, ih this]

theorem dlookup_dinsert (d : Dict) (k : String) (v : Value) (k' : String) :
    dlookup (dinsert d k v) k' = if k' = k then some v else dlookup d k' := by
  induction d with
  | nil =>
      by_cases h : k' = k
      · simp [dinsert, dlookup, h]
      · simp [dinsert, dlookup, h, Ne.symm h]
  | cons hd tl ih =>
      obtain ⟨k0, v0⟩ := hd
      by_cases h0 : k0 = k
      · subst h0
        by_cases h1 : k' = k0
        · simp [dinsert, dlookup, h1]
        · simp [dinsert, dlookup, h1, Ne.symm h1]
      · by_cases h1 : k' = k0
        · subst h1
          simp [dinsert, dlookup, h0, Ne.symm h0]
        · simp [dinsert, dlookup, h0, h1, Ne.symm h1, ih]

theorem dlookup_dupdate (b : Dict) (hb : keysNodup b) (a : Dict) (k : String) :
    dlookup (dupdate a b) k = (dlookup b k).orElse (fun _ => dlookup a k) := by
  induction b generalizing a with
  | nil => simp [dupdate, dlookup, Option.orElse]
  | cons hd tl ih =>
      obtain ⟨k0, v0⟩ := hd
      have htl : keysNodup tl := by
        simpa [keysNodup] using (List.nodup_cons.mp hb).2
      have hnotin : k0 ∉ tl.map Prod.fst := (List.nodup_cons.mp hb).1
      have step : dupdate a ((k0, v0) :: tl) = dupdate (dinsert a k0 v0) tl := by
        simp [dupdate]
      rw [step, ih htl]
      by_cases hk : k = k0
      · subst hk
        have hnone : dlookup tl k = none := dlookup_eq_none_of_not_mem tl k hnotin
        simp [hnone, dlookup_dinsert, dlookup, Option.orElse]
      · simp [dlookup, hk, Ne.symm hk, dlookup_dinsert, Option.orElse]

/-- Claim C5: for every sequence of per-call payloads produced by one resource
fetch (the four calls of `song_detail`, the three calls of `album_detail`),
the merged payload's key set is exactly the union of the contributing
payloads' key sets, and for every key occurring in several payloads the merged
value is the one from the latest call in call-sequence order
(last-write-wins). -/
theorem merged_payload_last_write_wins (r0 r1 r2 r3 : Dict)
    (h0 : keysNodup r0) (h1 : keysNodup r1) (h2 : keysNodup r2)
    (h3 : keysNodup r3) :
    (∀ k, dlookup (song_detail_merge r0 r1 r2 r3) k =
      (dlookup r3 k).orElse (fun _ =>
        (dlookup r2 k).orElse (fun _ =>
          (dlookup r1 k).orElse (fun _ => dlookup r0 k))))
    ∧ (∀ k, (dlookup (song_detail_merge r0 r1 r2 r3) k).isSome ↔
        ((dlookup r0 k).isSome ∨ (dlookup r1 k).isSome ∨
         (dlookup r2 k).isSome ∨ (dlookup r3 k).isSome))
    ∧ (∀ k, dlookup (album_detail_merge r0 r1 r3) k =
        (dlookup r3 k).orElse (fun _ =>
          (dlookup r1 k).orElse (fun _ => dlookup r0 k)))
    ∧ (∀ k, (dlookup (album_detail_merge r0 r1 r3) k).isSome ↔
        ((dlookup r0 k).isSome ∨ (dlookup r1 k).isSome ∨
         (dlookup r3 k).isSome)) := by
  have hsong : ∀ k, dlookup (song_detail_merge r0 r1 r2 r3) k =
      (dlookup r3 k).orElse (fun _ =>
        (dlookup r2 k).orElse (fun _ =>
          (dlookup r1 k).orElse (fun _ => dlookup r0 k))) := by
    intro k
    show dlookup (dupdate (dupdate (dupdate (dupdate [] r0) r1) r2) r3) k = _
    rw [dlookup_dupdate r3 h3, dlookup_dupdate r2 h2, dlookup_dupdate r1 h1,
      dlookup_dupdate r0 h0]
    cases dlookup r3 k <;> cases dlookup r2 k <;> cases dlookup r1 k <;>
      cases dlookup r0 k <;> simp [Option.orElse, dlookup]
  have halbum : ∀ k, dlookup (album_detail_merge r0 r1 r3) k =
      (dlookup r3 k).orElse (fun _ =>
        (dlookup r1 k).orElse (fun _ => dlookup r0 k)) := by
    intro k
    show dlookup (dupdate (dupdate (dupdate [] r0) r1) r3) k = _
    rw [dlookup_dupdate r3 h3, dlookup_dupdate r1 h1, dlookup_dupdate r0 h0]
    cases dlookup r3 k <;> cases dlookup r1 k <;> cases dlookup r0 k <;>
      simp [Option.orElse, dlookup]
  refine ⟨hsong, ?_, halbum, ?_⟩
  · intro k
    rw [hsong k]
    cases dlookup r3 k <;> cases dlookup r2 k <;> cases dlookup r1 k <;>
      cases dlookup r0 k <;> simp [Option.orElse]
  · intro k
    rw [halbum k]
    cases dlookup r3 k <;> cases dlookup r1 k <;> cases dlookup r0 k <;>
      simp [Option.orElse]

/-- Witness for C5: a concrete song fetch in which the comment-metadata call
overrides the detail call's value for the colliding key, the non-colliding
keys survive, and the key set is the union. -/
theorem merged_payload_last_write_wins_witness :
    dlookup (song_detail_merge
      [("id", Value.int 1), ("commentCount", Value.int 3)]
      [("commentCount", Value.int 7), ("threadId", Value.str "R_SO")]
      [("lrc", Value.str "lyric")] []) "commentCount" = some (Value.int 7)
    ∧ dlookup (song_detail_merge
      [("id", Value.int 1), ("commentCount", Value.int 3)]
      [("commentCount", Value.int 7), ("threadId", Value.str "R_SO")]
      [("lrc", Value.str "lyric")] []) "id" = some (Value.int 1)
    ∧ ((dlookup (song_detail_merge
      [("id", Value.int 1), ("commentCount", Value.int 3)]
      [("commentCount", Value.int 7), ("threadId", Value.str "R_SO")]
      [("lrc", Value.str "lyric")] []) "lrc").isSome = true) := by
  have h := merged_payload_last_write_wins
    [("id", Value.int 1), ("commentCount", Value.int 3)]
    [("commentCount", Value.int 7), ("threadId", Value.str "R_SO")]
    [("lrc", Value.str "lyric")] []
    (by decide) (by decide) (by decide) (by decide)
  refine ⟨?_, ?_, ?_⟩
  · rw [h.1 "commentCount"]; rfl
  · rw [h.1 "id"]; rfl
  · rw [h.1 "lrc"]; rfl

/-! ## url_parser.py: resource types, regex matchers, registry -/

/-- The `ResourceType` enumeration (url_parser.py lines 15-24). -/
inductive ResourceType where
  | SONG | ALBUM | PLAYLIST | USER | ARTIST | MV | SHORT_URL
deriving Repr, DecidableEq

/-- Render a `ResourceType` the way Python's f-string renders the enum
member, as used in the error message of `fetch_resource_info`. -/
def ResourceType.pyName : ResourceType → String
  | .SONG => "ResourceType.SONG"
  | .ALBUM => "ResourceType.ALBUM"
  | .PLAYLIST => "ResourceType.PLAYLIST"
  | .USER => "ResourceType.USER"
  | .ARTIST => "ResourceType.ARTIST"
  | .MV => "ResourceType.MV"
  | .SHORT_URL => "ResourceType.SHORT_URL"

/-- Consume the literal `lit` at the head of `cs`, returning the rest. -/
def litMatch : List Char → List Char → Option (List Char)
  | [], cs => some cs
  | _ :: _, [] => none
  | l :: ls, c :: cs => if c = l then litMatch ls cs else none

/-- The capture group of a regex of shape `LIT<rest>`: match the literal,
then hand the remainder to the continuation. -/
def litThen (lit : List Char) (tail : List Char → Option String)
    (cs : List Char) : Option String :=
  match litMatch lit cs with
  | some r => tail r
  | none => none

/-- Greedy `.*` (newline excluded, as Python's `.` without DOTALL) followed
by the continuation: the longest consumable run is tried first, falling back
one character at a time, which is exactly the backtracking order of a greedy
`.*`. -/
def dotStarThen (tail : List Char → Option String) : List Char → Option String
  | [] => tail []
  | c :: cs =>
      if c = '\n' then tail (c :: cs)
      else
        match dotStarThen tail cs with
        | some s => some s
        | none => tail (c :: cs)

/-- The capture group `(\d+)`: a greedy nonempty run of ASCII digits. -/
def digitsGroup (cs : List Char) : Option String :=
  if (cs.takeWhile Char.isDigit).isEmpty then none
  else some (String.mk (cs.takeWhile Char.isDigit))

/-- The capture group `([A-Za-z0-9]+)`: a greedy nonempty alphanumeric run. -/
def alnumGroup (cs : List Char) : Option String :=
  if (cs.takeWhile (fun c => c.isAlpha || c.isDigit)).isEmpty then none
  else some (String.mk (cs.takeWhile (fun c => c.isAlpha || c.isDigit)))

/-- Ordered alternation, as in a regex group `(?:A|B)`: try `A` first. -/
def altThen (a b : List Char → Option String) (cs : List Char) :
    Option String :=
  match a cs with
  | some s => some s
  | none => b cs

/-- `re.search` semantics: try the pattern at each start position from the
left; the leftmost position at which it matches wins. Returns the capture
group of that match. -/
def reSearch (m : List Char → Option String) : List Char → Option String
  | [] => m []
  | c :: cs =>
      match m (c :: cs) with
      | some s => some s
      | none => reSearch m cs

/-- Case-insensitive matching (`re.IGNORECASE`) is realised by lowercasing
the subject; the patterns below are all lowercase and capture only digits,
which lowercasing fixes. -/
def strLower (s : String) : String := String.mk (s.data.map Char.toLower)

/-- `music\.163\.com.*/song(?:\?id=|/)(\d+)` with `re.IGNORECASE`
(SongParser.PATTERN). -/
def songSearch (url : String) : Option String :=
  reSearch (litThen "music.163.com".data (dotStarThen (litThen "/song".data
    (altThen (litThen "?id=".data digitsGroup)
             (litThen "/".data digitsGroup)))))
    (strLower url).data

/-- `music\.163\.com.*/album(?:\?id=|/)(\d+)` with `re.IGNORECASE`
(AlbumParser.PATTERN). -/
def albumSearch (url : String) : Option String :=
  reSearch (litThen "music.163.com".data (dotStarThen (litThen "/album".data
    (altThen (litThen "?id=".data digitsGroup)
             (litThen "/".data digitsGroup)))))
    (strLower url).data

/-- `music\.163\.com.*/user(?:/home|)\?id=(\d+)` with `re.IGNORECASE`
(UserParser.PATTERN). -/
def userSearch (url : String) : Option String :=
  reSearch (litThen "music.163.com".data (dotStarThen (litThen "/user".data
    (altThen (litThen "/home".data (litThen "?id=".data digitsGroup))
             (litThen "?id=".data digitsGroup)))))
    (strLower url).data

/-- `music\.163\.com.*/playlist(?:\?id=|/)(\d+)` with `re.IGNORECASE`
(PlaylistParser.PATTERN). -/
def playlistSearch (url : String) : Option String :=
  reSearch (litThen "music.163.com".data (dotStarThen (litThen "/playlist".data
    (altThen (litThen "?id=".data digitsGroup)
             (litThen "/".data digitsGroup)))))
    (strLower url).data

/-- `music\.163\.com.*/artist\?id=(\d+)` with `re.IGNORECASE`
(ArtistParser.PATTERN). -/
def artistSearch (url : String) : Option String :=
  reSearch (litThen "music.163.com".data (dotStarThen (litThen "/artist".data
    (litThen "?id=".data digitsGroup))))
    (strLower url).data

/-- `music\.163\.com.*/mv(?:\?id=|/)(\d+)` with `re.IGNORECASE`
(MVParser.PATTERN). -/
def mvSearch (url : String) : Option String :=
  reSearch (litThen "music.163.com".data (dotStarThen (litThen "/mv".data
    (altThen (litThen "?id=".data digitsGroup)
             (litThen "/".data digitsGroup)))))
    (strLower url).data

/-- `163cn\.tv/([A-Za-z0-9]+)` (ShortUrlParser.PATTERN), case-sensitive. -/
def shortSearch (url : String) : Option String :=
  reSearch (litThen "163cn.tv/".data alnumGroup) url.data

/-- One registered `UrlParser` subclass: its class-level priority, resource
type, and the compiled pattern's search function (which returns the first
match's capture group).  `name` stands for Python's class identity, used by
the registry's duplicate-registration check. -/
structure UrlParserCls where
  name : String
  PRIORITY : Nat
  RESOURCE_TYPE : ResourceType
  search : String → Option String

/-- `RegexUrlParser.can_parse`: `bool(cls.PATTERN.search(url))`. -/
def UrlParserCls.can_parse (p : UrlParserCls) (url : String) : Bool :=
  (p.search url).isSome

def SongParser : UrlParserCls :=
  ⟨"SongParser", 10, .SONG, songSearch⟩

def AlbumParser : UrlParserCls :=
  ⟨"AlbumParser", 10, .ALBUM, albumSearch⟩

def UserParser : UrlParserCls :=
  ⟨"UserParser", 10, .USER, userSearch⟩

def PlaylistParser : UrlParserCls :=
  ⟨"PlaylistParser", 10, .PLAYLIST, playlistSearch⟩

def ArtistParser : UrlParserCls :=
  ⟨"ArtistParser", 10, .ARTIST, artistSearch⟩

def MVParser : UrlParserCls :=
  ⟨"MVParser", 10, .MV, mvSearch⟩

def ShortUrlParser : UrlParserCls :=
  ⟨"ShortUrlParser", 10, .SHORT_URL, shortSearch⟩

/-! ## exceptions.py: the raised error taxonomy -/

/-- The exception values the embedded code can raise (exceptions.py), plus
`pyExc` for raw Python/library exceptions (KeyError, TypeError,
requests/aiohttp errors) that cross the modelled code.  `context` mirrors the
free-form context mapping of `NcmBaseException`; `requestErr` and
`responseErr` chain the exception given as their `cause`/`from`, and
`responseErr` keeps the resource id from its `context`. -/
inductive Exc where
  | unsupportedUrl (msg : String)
  | urlParse (msg : String) (context : List (String × String))
  | shortUrl (msg : String) (context : List (String × String))
  | rateLimit (msg : String) (retryAfter : Int)
  | requestErr (msg : String) (cause : Option Exc)
  | responseErr (id : String) (cause : Option Exc)
  | pyExc (msg : String)

/-- Membership in the Python class `UrlParseError`:
`UnsupportedUrlError` is a subclass of `UrlParseError`
(exceptions.py lines 75-85), so both are caught by
`except (UrlParseError, UnsupportedUrlError)`. -/
def Exc.isUrlParseError : Exc → Bool
  | .urlParse _ _ => true
  | .unsupportedUrl _ => true
  | _ => false

/-- Membership in the Python class `ShortUrlError`. -/
def Exc.isShortUrlError : Exc → Bool
  | .shortUrl _ _ => true
  | _ => false

/-- `RegexUrlParser.parse` (url_parser.py lines 59-73): re-run the pattern,
fail with `UrlParseError` when it does not match or the captured id is empty
(falsy), otherwise return the class's resource type and the captured id.
The registered classes all set `RESOURCE_TYPE`, so the `ValueError` guard for
a missing type is dead and not modelled. -/
def RegexUrlParser.parse (p : UrlParserCls) (url : String) :
    Except Exc (ResourceType × String) :=
  match p.search url with
  | none => .error (.urlParse ("URL不匹配模式: " ++ url) [])
  | some rid =>
      if rid = "" then .error (.urlParse ("无法从URL提取资源ID: " ++ url) [])
      else .ok (p.RESOURCE_TYPE, rid)

/-! ## UrlParserRegistry -/

/-- Stable insertion into a priority-sorted list: an element is placed before
the first strictly-greater priority and after equal priorities. -/
def insertByPriority (p : UrlParserCls) :
    List UrlParserCls → List UrlParserCls
  | [] => [p]
  | q :: qs =>
      if p.PRIORITY ≤ q.PRIORITY then p :: q :: qs
      else q :: insertByPriority p qs

/-- Stable sort by priority.  `register` re-sorts the whole parser list with
Python's stable `list.sort(key=lambda p: p.PRIORITY)`; any stable sort gives
the same result, so insertion sort stands in for Timsort. -/
def sortByPriority : List UrlParserCls → List UrlParserCls
  | [] => []
  | p :: ps => insertByPriority p (sortByPriority ps)

/-- `UrlParserRegistry.register` (url_parser.py lines 161-167): append the
class unless already registered, then re-sort by priority (stable). -/
def register (ps : List UrlParserCls) (p : UrlParserCls) : List UrlParserCls :=
  if ps.any (fun q => q.name == p.name) then ps
  else sortByPriority (ps ++ [p])

namespace UrlParserRegistry

/-- The registry contents after the seven module-level `register` calls
(url_parser.py lines 191-197), in registration order. -/
def parsers : List UrlParserCls :=
  [SongParser, AlbumParser, UserParser, PlaylistParser, ArtistParser,
    MVParser, ShortUrlParser].foldl register []

/-- `UrlParserRegistry.getParser`: first registered parser whose
`can_parse` accepts the url. -/
def getParser (url : String) : Option UrlParserCls :=
  parsers.find? (fun p => p.can_parse url)

/-- `UrlParserRegistry.parse` (url_parser.py lines 177-189): dispatch to the
first matching parser, `UnsupportedUrlError` when none matches.  The matched
parser's `parse` raises only `UrlParseError`, which is re-raised as is, so
the wrapping `except Exception` branch is dead. -/
def parse (url : String) : Except Exc (ResourceType × String) :=
  match getParser url with
  | none => .error (.unsupportedUrl ("不支持的URL格式: " ++ url))
  | some p => RegexUrlParser.parse p url

end UrlParserRegistry

theorem parsers_eq : UrlParserRegistry.parsers =
    [SongParser, AlbumParser, UserParser, PlaylistParser, ArtistParser,
      MVParser, ShortUrlParser] := by
  rfl

/-- A search function never returns an empty capture group. -/
def NeverEmptyM (m : List Char → Option String) : Prop :=
  ∀ cs s, m cs = some s → s ≠ ""

theorem digitsGroup_neverEmpty : NeverEmptyM digitsGroup := by
  intro cs s h he
  unfold digitsGroup at h
  by_cases hd : (cs.takeWhile Char.isDigit).isEmpty
  · rw [if_pos hd] at h; exact Option.noConfusion h
  · rw [if_neg hd] at h
    rw [← Option.some.inj h] at he
    have hnil : (cs.takeWhile Char.isDigit) = [] := by
      have h2 := congrArg String.data he
      simpa using h2
    rw [hnil] at hd
    simp at hd

theorem alnumGroup_neverEmpty : NeverEmptyM alnumGroup := by
  intro cs s h he
  unfold alnumGroup at h
  by_cases hd : (cs.takeWhile (fun c => c.isAlpha || c.isDigit)).isEmpty
  · rw [if_pos hd] at h; exact Option.noConfusion h
  · rw [if_neg hd] at h
    rw [← Option.some.inj h] at he
    have hnil : (cs.takeWhile (fun c => c.isAlpha || c.isDigit)) = [] := by
      have h2 := congrArg String.data he
      simpa using h2
    rw [hnil] at hd
    simp at hd

theorem litThen_neverEmpty (lit : List Char) (m : List Char → Option String)
    (h : NeverEmptyM m) : NeverEmptyM (litThen lit m) := by
  intro cs s hs
  unfold litThen at hs
  cases hm : litMatch lit cs with
  | none => simp [hm] at hs
  | some r => rw [hm] at hs; exact h r s hs

theorem altThen_neverEmpty (a b : List Char → Option String)
    (ha : NeverEmptyM a) (hb : NeverEmptyM b) : NeverEmptyM (altThen a b) := by
  intro cs s hs
  unfold altThen at hs
  cases hm : a cs with
  | none => rw [hm] at hs; exact hb cs s hs
  | some r => rw [hm] at hs; rw [← Option.some.inj hs]; exact ha cs r hm

theorem dotStarThen_neverEmpty (m : List Char → Option String)
    (h : NeverEmptyM m) : NeverEmptyM (dotStarThen m) := by
  intro cs
  induction cs with
  | nil => intro s hs; exact h [] s hs
  | cons c cs ih =>
      intro s hs
      unfold dotStarThen at hs
      by_cases hc : c = '\n'
      · rw [if_pos hc] at hs; exact h _ s hs
      · rw [if_neg hc] at hs
        cases hm : dotStarThen m cs with
        | none => rw [hm] at hs; exact h _ s hs
        | some r => rw [hm] at hs; rw [← Option.some.inj hs]; exact ih r hm

theorem reSearch_neverEmpty (m : List Char → Option String)
    (h : NeverEmptyM m) : NeverEmptyM (reSearch m) := by
  intro cs
  induction cs with
  | nil => intro s hs; exact h [] s hs
  | cons c cs ih =>
      intro s hs
      unfold reSearch at hs
      cases hm : m (c :: cs) with
      | none => rw [hm] at hs; exact ih s hs
      | some r => rw [hm] at hs; rw [← Option.some.inj hs]; exact h _ r hm

/-- The common shape `LIT.*TAIL` of the six music.163.com patterns never
captures an empty id when `TAIL` does not. -/
theorem hostPattern_neverEmpty (host sub : List Char)
    (tail : List Char → Option String) (h : NeverEmptyM tail) :
    NeverEmptyM (litThen host (dotStarThen (litThen sub tail))) :=
  litThen_neverEmpty _ _ (dotStarThen_neverEmpty _ (litThen_neverEmpty _ _ h))

/-- Every registered parser captures a nonempty id whenever its pattern
matches: all seven capture groups are `(\d+)` or `([A-Za-z0-9]+)`. -/
theorem registered_search_nonempty (p : UrlParserCls)
    (hp : p ∈ UrlParserRegistry.parsers) (url : String) (rid : String)
    (h : p.search url = some rid) : rid ≠ "" := by
  have hidAlt : NeverEmptyM (altThen (litThen "?id=".data digitsGroup)
      (litThen "/".data digitsGroup)) :=
    altThen_neverEmpty _ _ (litThen_neverEmpty _ _ digitsGroup_neverEmpty)
      (litThen_neverEmpty _ _ digitsGroup_neverEmpty)
  rw [parsers_eq] at hp
  simp only [List.mem_cons, List.not_mem_nil, or_false] at hp
  rcases hp with rfl | rfl | rfl | rfl | rfl | rfl | rfl
  · exact reSearch_neverEmpty _
      (hostPattern_neverEmpty _ _ _ hidAlt) _ rid h
  · exact reSearch_neverEmpty _
      (hostPattern_neverEmpty _ _ _ hidAlt) _ rid h
  · exact reSearch_neverEmpty _
      (hostPattern_neverEmpty _ _ _
        (altThen_neverEmpty _ _
          (litThen_neverEmpty _ _ (litThen_neverEmpty _ _ digitsGroup_neverEmpty))
          (litThen_neverEmpty _ _ digitsGroup_neverEmpty))) _ rid h
  · exact reSearch_neverEmpty _
      (hostPattern_neverEmpty _ _ _ hidAlt) _ rid h
  · exact reSearch_neverEmpty _
      (hostPattern_neverEmpty _ _ _
        (litThen_neverEmpty _ _ digitsGroup_neverEmpty)) _ rid h
  · exact reSearch_neverEmpty _
      (hostPattern_neverEmpty _ _ _ hidAlt) _ rid h
  · exact reSearch_neverEmpty _
      (litThen_neverEmpty _ _ alnumGroup_neverEmpty) _ rid h

theorem find?_append_first {α : Type} (f : α → Bool) (pre : List α) (p : α)
    (post : List α) (hpre : ∀ q ∈ pre, f q = false) (hp : f p = true) :
    (pre ++ p :: post).find? f = some p := by
  induction pre with
  | nil => simp [List.find?, hp]
  | cons a l ih =>
      have ha := hpre a (by simp)
      rw [List.cons_append, List.find?_cons_of_neg _ (by simp [ha])]
      exact ih (fun q hq => hpre q (by simp [hq]))

/-- Claim C1: for every url string, classification tries the registered
matchers in ascending priority order (ties broken by registration order — the
registry list below is both priority-sorted and in registration order) and
returns the (resource kind, id) pair of the first matcher whose pattern
matches, never a lower-precedence alternative even if several matchers match
(`post` may contain matching parsers); if no registered matcher matches,
classification fails with `UnsupportedUrlError`. -/
theorem classify_first_match_wins (url : String) :
    (UrlParserRegistry.parsers =
        [SongParser, AlbumParser, UserParser, PlaylistParser, ArtistParser,
          MVParser, ShortUrlParser]
      ∧ List.Chain' (fun p q => p.PRIORITY ≤ q.PRIORITY)
          UrlParserRegistry.parsers)
    ∧ ((∀ p ∈ UrlParserRegistry.parsers, p.can_parse url = false) →
        UrlParserRegistry.parse url =
          .error (.unsupportedUrl ("不支持的URL格式: " ++ url)))
    ∧ (∀ pre p post, UrlParserRegistry.parsers = pre ++ p :: post →
        (∀ q ∈ pre, q.can_parse url = false) → p.can_parse url = true →
        ∃ rid, p.search url = some rid ∧
          UrlParserRegistry.parse url = .ok (p.RESOURCE_TYPE, rid)) := by
  refine ⟨⟨parsers_eq, ?_⟩, ?_, ?_⟩
  · rw [parsers_eq]
    simp [List.chain'_cons, SongParser, AlbumParser, UserParser,
      PlaylistParser, ArtistParser, MVParser, ShortUrlParser]
  · intro hall
    unfold UrlParserRegistry.parse UrlParserRegistry.getParser
    have hnone : UrlParserRegistry.parsers.find?
        (fun p => p.can_parse url) = none := by
      rw [List.find?_eq_none]
      intro x hx
      simp [hall x hx]
    rw [hnone]
  · intro pre p post heq hpre hp
    have hfind : UrlParserRegistry.parsers.find?
        (fun q => q.can_parse url) = some p := by
      rw [heq]; exact find?_append_first _ pre p post hpre hp
    have hmem : p ∈ UrlParserRegistry.parsers := by rw [heq]; simp
    obtain ⟨rid, hrid⟩ : ∃ rid, p.search url = some rid := by
      unfold UrlParserCls.can_parse at hp
      cases hs : p.search url
      · rw [hs] at hp; simp at hp
      · exact ⟨_, rfl⟩
    refine ⟨rid, hrid, ?_⟩
    have hpp : UrlParserRegistry.parse url = RegexUrlParser.parse p url := by
      unfold UrlParserRegistry.parse UrlParserRegistry.getParser
      rw [hfind]
    rw [hpp]
    unfold RegexUrlParser.parse
    rw [hrid]
    simp [registered_search_nonempty p hmem url rid hrid]

/-- Witness for C1 (spec Scenario A): the song url is matched by the first
registered parser and classification returns `(SONG, "2708737458")`. -/
theorem classify_first_match_wins_witness :
    UrlParserRegistry.parse "https://music.163.com/#/song?id=2708737458" =
      .ok (ResourceType.SONG, "2708737458") := by
  obtain ⟨-, -, h⟩ :=
    classify_first_match_wins "https://music.163.com/#/song?id=2708737458"
  obtain ⟨rid, hs, hp⟩ := h [] SongParser
    [AlbumParser, UserParser, PlaylistParser, ArtistParser, MVParser,
      ShortUrlParser]
    (by rw [parsers_eq]; rfl) (by intro q hq; simp at hq) (by decide)
  have hval : SongParser.search "https://music.163.com/#/song?id=2708737458"
      = some "2708737458" := by rfl
  have hrid : rid = "2708737458" := Option.some.inj (hs.symm.trans hval)
  rw [hp, hrid]
  rfl

/-! ## common.py: retry backoff -/

/-- `calculate_retry_wait_time` (common.py lines 19-41).  Python floats are
modelled as rationals (every value computed here is one).  `jitterDraw`
stands for the `random.uniform(-jitter_amount, jitter_amount)` sample, passed
explicitly so the function stays a function. -/
def calculate_retry_wait_time (attempt : ℤ) (base_delay max_delay : ℚ)
    (exponential jitter : Bool) (jitterDraw : ℚ) : ℚ :=
  let wait0 : ℚ :=
    if exponential then base_delay * (2 : ℚ) ^ (attempt - 1)
    else base_delay * (attempt : ℚ)
  let wait1 := min wait0 max_delay
  if jitter then max (base_delay * (1 / 2)) (wait1 + jitterDraw) else wait1

/-- Claim C7: for every retry attempt number n ≥ 1, the backoff delay before
retry, taken without jitter, equals `min(cap, base * 2^(n-1))`; consequently
it is monotonically non-decreasing in n and never exceeds the configured
maximum. -/
theorem backoff_formula_monotone_capped (n m : ℤ) (base cap : ℚ)
    (_hn : 1 ≤ n) (hb : 0 ≤ base) :
    calculate_retry_wait_time n base cap true false 0 =
      min cap (base * (2 : ℚ) ^ (n - 1))
    ∧ (n ≤ m →
        calculate_retry_wait_time n base cap true false 0 ≤
          calculate_retry_wait_time m base cap true false 0)
    ∧ calculate_retry_wait_time n base cap true false 0 ≤ cap := by
  refine ⟨?_, ?_, ?_⟩
  · unfold calculate_retry_wait_time
    simp [min_comm]
  · intro hnm
    unfold calculate_retry_wait_time
    simp only [if_true, if_false]
    refine min_le_min ?_ le_rfl
    refine mul_le_mul_of_nonneg_left ?_ hb
    exact zpow_le_zpow_right₀ (by norm_num) (by omega)
  · unfold calculate_retry_wait_time
    simp

/-- Witness for C7: with base 1 and cap 60, attempt 3 waits `4 = min 60 4`
seconds, no more than attempt 4 would, and no more than the cap. -/
theorem backoff_formula_monotone_capped_witness :
    calculate_retry_wait_time 3 1 60 true false 0 = 4
    ∧ calculate_retry_wait_time 3 1 60 true false 0 ≤
        calculate_retry_wait_time 4 1 60 true false 0
    ∧ calculate_retry_wait_time 3 1 60 true false 0 ≤ 60 := by
  have h := backoff_formula_monotone_capped 3 4 1 60 (by norm_num) (by norm_num)
  refine ⟨?_, h.2.1 (by norm_num), h.2.2⟩
  rw [h.1]
  norm_num

/-! ## network_service.py: rate limiting and the retrying GET -/

/-- What one `session.get` attempt does: an HTTP response (with the value of
its `Retry-After` header, if any), an `aiohttp.ClientError`/`TimeoutError`,
or any other exception. -/
inductive AttemptOutcome where
  | resp (status : Nat) (retryAfter : Option String)
  | clientError (msg : String)
  | otherError (msg : String)

/-- The network environment: the outcome of the attempt with each 1-based
attempt number within one `NetworkService.get` call. -/
structure NetEnv where
  attempts : Nat → AttemptOutcome

/-- The observable actions of `NetworkService.get`, in order: a
`RateLimiter.acquire` call, an HTTP send, an `asyncio.sleep(retry_after)`, or
an `asyncio.sleep(1.0 * 2 ** (attempt - 1))` backoff. -/
inductive NetEvent where
  | acquire (url : String)
  | send (attempt : Nat)
  | sleepRetryAfter (secs : Int)
  | sleepBackoff (secs : ℚ)
deriving DecidableEq, Repr

def isAcquireEvent : NetEvent → Bool
  | .acquire _ => true
  | _ => false

/-- How `NetworkService.get` ends: returning a response, raising, or falling
out of the loop (which Python only does when `max_attempts < 1`, returning
`None`). -/
inductive NetResult where
  | returned (status : Nat)
  | raised (e : Exc)
  | fellThrough

/-- ASCII whitespace as stripped by Python's `str.strip()`. -/
def isPyWhitespace (c : Char) : Bool :=
  c = ' ' || c = '\t' || c = '\n' || c = '\r'

/-- Python `str.strip()`: drop leading and trailing whitespace. -/
def pyStrip (s : String) : String :=
  String.mk
    (((s.data.dropWhile isPyWhitespace).reverse.dropWhile
      isPyWhitespace).reverse)

def digitsToNat (cs : List Char) : Nat :=
  cs.foldl (fun n c => n * 10 + (c.toNat - '0'.toNat)) 0

/-- Python `int(s)` on a string: strip whitespace, then an optional sign and
a nonempty run of decimal digits; anything else raises `ValueError`. -/
def pyIntOfStr (s : String) : Option Int :=
  match (pyStrip s).data with
  | '+' :: rest =>
      if rest.isEmpty || !rest.all Char.isDigit then none
      else some (Int.ofNat (digitsToNat rest))
  | '-' :: rest =>
      if rest.isEmpty || !rest.all Char.isDigit then none
      else some (-(Int.ofNat (digitsToNat rest)))
  | cs =>
      if cs.isEmpty || !cs.all Char.isDigit then none
      else some (Int.ofNat (digitsToNat cs))

/-- `int(response.headers.get("Retry-After", "5"))`
(network_service.py line 217). -/
def retryAfterOf (h : Option String) : Option Int :=
  pyIntOfStr (h.getD "5")

/-- The `for attempt in range(1, max_attempts + 1)` body of
`NetworkService.get` (network_service.py lines 197-253), recursing over the
remaining attempt numbers and recording the events it performs.  Everything
raised inside the `try:` that is not an `aiohttp.ClientError`/`TimeoutError`
is caught by the trailing `except Exception` clause (line 249) and re-raised
as `NcmRequestError` with the original exception as cause: this hits both a
`ValueError` from `int(...)` on a malformed `Retry-After` and — because
`RateLimitError` is an `Exception` but not a transport error — the
`RateLimitError` the code itself raises on the final 429 attempt
(line 227). -/
def netLoop (env : NetEnv) (maxA : Nat) : List Nat → List NetEvent × NetResult
  | [] => ([], .fellThrough)
  | attempt :: rest =>
      match env.attempts attempt with
      | .resp status ra =>
          if status = 429 then
            match retryAfterOf ra with
            | none => ([.send attempt],
                .raised (.requestErr "请求异常" (some (.pyExc "ValueError"))))
            | some raSecs =>
                if attempt < maxA then
                  let r := netLoop env maxA rest
                  (.send attempt :: .sleepRetryAfter raSecs :: r.1, r.2)
                else
                  ([.send attempt],
                    .raised (.requestErr "请求异常"
                      (some (.rateLimit "请求频率限制" raSecs))))
          else ([.send attempt], .returned status)
      | .clientError m =>
          if attempt < maxA then
            let r := netLoop env maxA rest
            (.send attempt ::
              .sleepBackoff ((2 : ℚ) ^ (attempt - 1)) :: r.1, r.2)
          else ([.send attempt],
            .raised (.requestErr "请求失败" (some (.pyExc m))))
      | .otherError m => ([.send attempt],
          .raised (.requestErr "请求异常" (some (.pyExc m))))

/-- `NetworkService.get` (network_service.py lines 176-253): one
`RateLimiter.acquire(url)` when `use_rate_limit`, then the attempt loop. -/
def NetworkService.get (env : NetEnv) (url : String) (use_rate_limit : Bool)
    (max_attempts : Nat) : List NetEvent × NetResult :=
  let pre : List NetEvent := if use_rate_limit then [.acquire url] else []
  let r := netLoop env max_attempts (List.range' 1 max_attempts)
  (pre ++ r.1, r.2)

/-- Upstream answers 429 with `Retry-After: 3` on every attempt
(spec Scenario D). -/
def env429 : NetEnv := ⟨fun _ => .resp 429 (some "3")⟩

/-- Claim C6 (code-bug evidence), at the claim's own Scenario D input: every
attempt answers 429 with `Retry-After: 3` and `max_attempts = 3`.  The
client does read the header (defaulting to 5 when absent) and sleeps 3s
before attempts 2 and 3 as claimed, but the `RateLimitError` it constructs
after the final attempt is caught by the same function's trailing
`except Exception` and re-raised as `NcmRequestError` with the
`RateLimitError` (still carrying retryAfter 3) only as its cause: the
request never fails with a `RateLimitError`. -/
theorem http429_final_attempt_wrapped :
    retryAfterOf none = some 5
    ∧ (NetworkService.get env429 "https://music.163.com/api" true 3).1 =
        [.acquire "https://music.163.com/api", .send 1, .sleepRetryAfter 3,
          .send 2, .sleepRetryAfter 3, .send 3]
    ∧ (NetworkService.get env429 "https://music.163.com/api" true 3).2 =
        .raised (.requestErr "请求异常"
          (some (.rateLimit "请求频率限制" 3)))
    ∧ ∀ (msg : String) (ra : Int),
        (NetworkService.get env429 "https://music.163.com/api" true 3).2 ≠
          .raised (.rateLimit msg ra) := by
  refine ⟨by decide, by decide, by rfl, ?_⟩
  intro msg ra h
  have he : (NetworkService.get env429 "https://music.163.com/api" true 3).2 =
      .raised (.requestErr "请求异常"
        (some (.rateLimit "请求频率限制" 3))) := by rfl
  rw [he] at h
  exact Exc.noConfusion (NetResult.raised.inj h)

theorem netLoop_no_acquire (env : NetEnv) (maxA : Nat) (l : List Nat) :
    (netLoop env maxA l).1.countP isAcquireEvent = 0 := by
  induction l with
  | nil => rfl
  | cons a rest ih =>
      unfold netLoop
      cases env.attempts a with
      | resp status ra =>
          by_cases h4 : status = 429
          · cases hra : retryAfterOf ra with
            | none => simp [h4, hra, List.countP_cons, isAcquireEvent]
            | some raSecs =>
                by_cases hlt : a < maxA <;>
                  simp [h4, hra, hlt, List.countP_cons, isAcquireEvent, ih]
          · simp [h4, List.countP_cons, isAcquireEvent]
      | clientError m =>
          by_cases hlt : a < maxA <;>
            simp [hlt, List.countP_cons, isAcquireEvent, ih]
      | otherError m => simp [List.countP_cons, isAcquireEvent]

/-- Attempts 1 and 2 fail with a transport error, attempt 3 succeeds. -/
def envBackoffCE : NetEnv :=
  ⟨fun n => if n ≤ 2 then .clientError "timeout" else .resp 200 none⟩

/-- Counterexample to C8 as stated: with rate limiting enabled and
`max_attempts = 3`, three attempts are sent but the whole request performs
exactly one `RateLimiter.acquire` — it is not performed before every
attempt. -/
theorem acquire_per_attempt_counterexample :
    NetworkService.get envBackoffCE "https://music.163.com/api" true 3 =
      ([.acquire "https://music.163.com/api", .send 1, .sleepBackoff 1,
        .send 2, .sleepBackoff 2, .send 3], .returned 200)
    ∧ ((NetworkService.get envBackoffCE "https://music.163.com/api"
        true 3).1.countP isAcquireEvent = 1
       ∧ (NetworkService.get envBackoffCE "https://music.163.com/api"
        true 3).1.countP (fun e => match e with
          | .send _ => true | _ => false) = 3) := by
  refine ⟨?_, by rfl, by rfl⟩
  have htr : (NetworkService.get envBackoffCE "https://music.163.com/api"
      true 3).1 = [.acquire "https://music.163.com/api", .send 1,
        .sleepBackoff 1, .send 2, .sleepBackoff 2, .send 3] := by decide
  have hres : (NetworkService.get envBackoffCE "https://music.163.com/api"
      true 3).2 = .returned 200 := by rfl
  calc NetworkService.get envBackoffCE "https://music.163.com/api" true 3
      = ((NetworkService.get envBackoffCE "https://music.163.com/api"
          true 3).1,
         (NetworkService.get envBackoffCE "https://music.163.com/api"
          true 3).2) := rfl
    _ = _ := by rw [htr, hres]

/-- Claim C8 (amended): for every request through `NetworkService.get` with
rate limiting enabled, `RateLimiter.acquire` for the url is called exactly
once, before the first attempt; retries within the request do not
re-acquire; a call opting out performs no acquire at all. -/
theorem rate_limit_acquire_once_per_request (env : NetEnv) (url : String)
    (maxA : Nat) :
    ((NetworkService.get env url true maxA).1.countP isAcquireEvent = 1)
    ∧ ((NetworkService.get env url true maxA).1.head? =
        some (.acquire url))
    ∧ ((NetworkService.get env url false maxA).1.countP
        isAcquireEvent = 0) := by
  unfold NetworkService.get
  refine ⟨?_, ?_, ?_⟩
  · simp [List.countP_append, List.countP_cons, isAcquireEvent,
      netLoop_no_acquire]
  · simp
  · simp [netLoop_no_acquire]

/-! ## api_service.py: coercions, domain models, field mapping -/

/-- Python `str()`: total.  The mapped string fields only ever read back
strings the upstream sent, so the exact `repr` of containers is irrelevant;
they render as fixed tokens. -/
def pyStr : Value → String
  | .str s => s
  | .int n => toString n
  | .bool b => if b then "True" else "False"
  | .null => "None"
  | .list _ => "[...]"
  | .dict _ => "\x7bdict\x7d"

/-- Python `int(v)`: ints pass through, bools coerce, numeric strings parse,
everything else raises (`TypeError`/`ValueError`). -/
def pyInt : Value → Option Int
  | .int n => some n
  | .bool b => some (if b then 1 else 0)
  | .str s => pyIntOfStr s
  | _ => none

/-- Python `list(v)`: lists copy, dicts yield their keys, strings their
characters; non-iterables raise `TypeError`. -/
def pyList : Value → Option (List Value)
  | .list xs => some xs
  | .dict kvs => some (kvs.map (fun p => Value.str p.1))
  | .str s => some (s.data.map (fun c => Value.str (String.mk [c])))
  | _ => none

def pyPairsToDictAux : List Value → Dict → Option Dict
  | [], acc => some acc
  | .list [.str k, v] :: rest, acc => pyPairsToDictAux rest (dinsert acc k v)
  | _, _ => none

/-- Python `dict(v)`: dicts copy; lists of string-keyed pairs build a dict
(later duplicates override); everything else raises `TypeError`. -/
def pyDict : Value → Option Dict
  | .dict kvs => some kvs
  | .list xs => pyPairsToDictAux xs []
  | _ => none

/-- `info[k]`: `KeyError` when the key is absent. -/
def pyGetItem (info : Dict) (k : String) : Except Exc Value :=
  match dlookup info k with
  | some v => .ok v
  | none => .error (.pyExc ("KeyError: " ++ k))

def asInt (v : Value) : Except Exc Int :=
  match pyInt v with
  | some n => .ok n
  | none => .error (.pyExc "int(): invalid value")

def asList (v : Value) : Except Exc (List Value) :=
  match pyList v with
  | some xs => .ok xs
  | none => .error (.pyExc "list(): not iterable")

def asDict (v : Value) : Except Exc Dict :=
  match pyDict v with
  | some d => .ok d
  | none => .error (.pyExc "dict(): invalid value")

/-- `str(info[k])` for a required field. -/
def reqStr (info : Dict) (k : String) : Except Exc String :=
  (pyGetItem info k).map pyStr

/-- `int(info[k])` for a required field. -/
def reqInt (info : Dict) (k : String) : Except Exc Int := do
  asInt (← pyGetItem info k)

/-- `list(info[k])` for a required field. -/
def reqList (info : Dict) (k : String) : Except Exc (List Value) := do
  asList (← pyGetItem info k)

/-- `dict(info[k])` for a required field. -/
def reqDict (info : Dict) (k : String) : Except Exc Dict := do
  asDict (← pyGetItem info k)

/-- `dict(info.get(k, \x7b\x7d))` for an optional mapping field: an empty
mapping when absent. -/
def optDict (info : Dict) (k : String) : Except Exc Dict :=
  asDict ((dlookup info k).getD (Value.dict []))

/-- `list(info.get(k, \x7b\x7d))` for an optional list field: `list` of the
empty dict, i.e. `[]`, when absent. -/
def optList (info : Dict) (k : String) : Except Exc (List Value) :=
  asList ((dlookup info k).getD (Value.dict []))

/-- `int(info.get(k, 0))` for an optional integer field. -/
def optIntD (info : Dict) (k : String) : Except Exc Int :=
  asInt ((dlookup info k).getD (Value.int 0))

/-- model.py `SongInfo`. -/
structure SongInfo where
  id : String
  name : String
  ar : List Value
  al : Dict
  publishTime : Int
  dt : Int
  commentCount : Int
  shareCount : Int
  lyricUser : Dict
  transUser : Dict
  tns : List Value
  alia : List Value
  hotComments : List Value

/-- model.py `AlbumInfo`. -/
structure AlbumInfo where
  id : String
  name : String
  artists : List Value
  picUrl : String
  description : String
  publishTime : Int
  commentCount : Int
  shareCount : Int
  songs : List Value
  hotComments : List Value

/-- model.py `UserInfo`. -/
structure UserInfo where
  id : String
  name : String
  createTime : Int
  avatarUrl : String
  birthday : Int
  signature : String
  followeds : Int
  follows : Int
  eventCount : Int
  playlistCount : Int

/-- model.py `PlaylistInfo`. -/
structure PlaylistInfo where
  id : String
  name : String
  createTime : Int
  coverImgUrl : String
  playCount : Int
  subscribedCount : Int
  description : String
  tags : List Value
  commentCount : Int
  shareCount : Int
  creator : Dict
  tracks : List Value
  trackIds : List Value
  hotComments : List Value

/-- model.py `ArtistInfo`. -/
structure ArtistInfo where
  id : String
  name : String
  picUrl : String
  «alias» : List Value
  briefDesc : String
  musicSize : Int
  albumSize : Int
  mvSize : Int
  hotSongs : List Value

/-- `MVInfo` is imported from model.py but the class is absent from the
src copy of model.py.  Modelled from the spec: the mv-detail row of the
operation table (§6) and the field list of
`NcmApiService._map_mv_info_to_model`, which fully determines the shape. -/
structure MVInfo where
  id : String
  name : String
  desc : String
  cover : String
  artists : List Value
  duration : Int
  publishTime : String
  playCount : Int
  subCount : Int
  commentCount : Int
  shareCount : Int
  hotComments : List Value

/-- The closed union of domain models produced by the aggregation layer. -/
inductive DomainModel where
  | song (m : SongInfo)
  | album (m : AlbumInfo)
  | user (m : UserInfo)
  | playlist (m : PlaylistInfo)
  | artist (m : ArtistInfo)
  | mv (m : MVInfo)

namespace NcmApiService

/-- `_map_song_info_to_model` (api_service.py lines 42-61): fields in the
constructor-argument order of the source; required fields raise on a missing
key or failed coercion, the optional trailing fields default via
`info.get(..., \x7b\x7d)`. -/
def _map_song_info_to_model (info : Dict) : Except Exc SongInfo := do
  let id ← reqStr info "id"
  let name ← reqStr info "name"
  let ar ← reqList info "ar"
  let al ← reqDict info "al"
  let publishTime ← reqInt info "publishTime"
  let dt ← reqInt info "dt"
  let commentCount ← reqInt info "commentCount"
  let shareCount ← reqInt info "shareCount"
  let lyricUser ← optDict info "lyricUser"
  let transUser ← optDict info "transUser"
  let tns ← optList info "tns"
  let alia ← optList info "alia"
  let hotComments ← optList info "hotComments"
  return ⟨id, name, ar, al, publishTime, dt, commentCount, shareCount,
    lyricUser, transUser, tns, alia, hotComments⟩

/-- `_map_album_info_to_model` (api_service.py lines 63-81). -/
def _map_album_info_to_model (info : Dict) : Except Exc AlbumInfo := do
  let album ← reqDict info "album"
  let id ← reqStr album "id"
  let name ← reqStr album "name"
  let artists ← reqList album "artists"
  let picUrl ← reqStr album "picUrl"
  let description ← reqStr album "description"
  let publishTime ← reqInt album "publishTime"
  let commentCount ← reqInt info "commentCount"
  let shareCount ← reqInt info "shareCount"
  let songs ← reqList info "songs"
  let hotComments ← optList info "hotComments"
  return ⟨id, name, artists, picUrl, description, publishTime, commentCount,
    shareCount, songs, hotComments⟩

/-- `_map_user_info_to_model` (api_service.py lines 83-100). -/
def _map_user_info_to_model (info : Dict) : Except Exc UserInfo := do
  let profile ← reqDict info "profile"
  let id ← reqStr profile "userId"
  let name ← reqStr profile "nickname"
  let createTime ← optIntD profile "createTime"
  let avatarUrl ← reqStr profile "avatarUrl"
  let birthday ← optIntD profile "birthday"
  let signature ← reqStr profile "signature"
  let followeds ← reqInt profile "followeds"
  let follows ← reqInt profile "follows"
  let eventCount ← reqInt profile "eventCount"
  let playlistCount ← reqInt profile "playlistCount"
  return ⟨id, name, createTime, avatarUrl, birthday, signature, followeds,
    follows, eventCount, playlistCount⟩

/-- `_map_playlist_info_to_model` (api_service.py lines 102-124). -/
def _map_playlist_info_to_model (info : Dict) : Except Exc PlaylistInfo := do
  let playlist ← reqDict info "playlist"
  let id ← reqStr playlist "id"
  let name ← reqStr playlist "name"
  let createTime ← reqInt playlist "createTime"
  let coverImgUrl ← reqStr playlist "coverImgUrl"
  let playCount ← reqInt playlist "playCount"
  let subscribedCount ← reqInt playlist "subscribedCount"
  let description ← reqStr playlist "description"
  let tags ← reqList playlist "tags"
  let commentCount ← reqInt playlist "commentCount"
  let shareCount ← reqInt playlist "shareCount"
  let creator ← reqDict playlist "creator"
  let tracks ← reqList playlist "tracks"
  let trackIds ← reqList playlist "trackIds"
  let hotComments ← optList info "hotComments"
  return ⟨id, name, createTime, coverImgUrl, playCount, subscribedCount,
    description, tags, commentCount, shareCount, creator, tracks, trackIds,
    hotComments⟩

/-- `_map_artist_info_to_model` (api_service.py lines 126-142). -/
def _map_artist_info_to_model (info : Dict) : Except Exc ArtistInfo := do
  let artist ← reqDict info "artist"
  let id ← reqStr artist "id"
  let name ← reqStr artist "name"
  let picUrl ← reqStr artist "picUrl"
  let «alias» ← reqList artist "alias"
  let briefDesc ← reqStr artist "briefDesc"
  let musicSize ← reqInt artist "musicSize"
  let albumSize ← reqInt artist "albumSize"
  let mvSize ← reqInt artist "mvSize"
  let hotSongs ← reqList info "hotSongs"
  return ⟨id, name, picUrl, «alias», briefDesc, musicSize, albumSize, mvSize,
    hotSongs⟩

/-- `_map_mv_info_to_model` (api_service.py lines 144-163). -/
def _map_mv_info_to_model (info : Dict) : Except Exc MVInfo := do
  let data ← reqDict info "data"
  let id ← reqStr data "id"
  let name ← reqStr data "name"
  let desc ← reqStr data "desc"
  let cover ← reqStr data "cover"
  let artists ← reqList data "artists"
  let duration ← reqInt data "duration"
  let publishTime ← reqStr data "publishTime"
  let playCount ← reqInt data "playCount"
  let subCount ← reqInt data "subCount"
  let commentCount ← reqInt data "commentCount"
  let shareCount ← reqInt data "shareCount"
  let hotComments ← reqList info "hotComments"
  return ⟨id, name, desc, cover, artists, duration, publishTime, playCount,
    subCount, commentCount, shareCount, hotComments⟩

/-- `get_info` (api_service.py lines 284-303): run the detail call plan, map
the merged payload; any exception from either step is wrapped into
`NcmResponseError` whose context carries the resource id.  `detail` is the
outcome of `detail_func(id)`. -/
def get_info (id : String) (detail : Except Exc Dict)
    (model_func : Dict → Except Exc DomainModel) : Except Exc DomainModel :=
  match detail with
  | .error e => .error (.responseErr id (some e))
  | .ok info =>
      match model_func info with
      | .ok m => .ok m
      | .error e => .error (.responseErr id (some e))

end NcmApiService

/-! ## parser_service.py: short links, dispatch, the parse pipeline -/

/-- `pat` matches at the head of `cs`. -/
def listHeadMatch : List Char → List Char → Bool
  | [], _ => true
  | _ :: _, [] => false
  | p :: ps, c :: cs => p = c && listHeadMatch ps cs

/-- Substring containment over char lists. -/
def listContainsSub (pat : List Char) : List Char → Bool
  | [] => listHeadMatch pat []
  | c :: cs => listHeadMatch pat (c :: cs) || listContainsSub pat cs

/-- Python `pat in s`. -/
def strContainsSub (s pat : String) : Bool :=
  listContainsSub pat.data s.data

/-- Python `s.startswith(pat)`. -/
def strStartsWith (s pat : String) : Bool :=
  listHeadMatch pat.data s.data

/-- Outcomes of the upstream collaborators, per id/url, abstracting the
network: `shortGet` is what `requests.get(url)` inside
`NcmApiService.resolve_short_url` produces (`response.url` after redirects,
or a raised requests/transport exception — that code never raises
`ShortUrlError`), and each `*Detail` field is the outcome of the
corresponding `NcmApiService.*_detail(id)` call plan (its merged payload or
its raised exception). -/
structure Env where
  shortGet : String → Except Exc String
  songDetail : String → Except Exc Dict
  albumDetail : String → Except Exc Dict
  userDetail : String → Except Exc Dict
  playlistDetail : String → Except Exc Dict
  artistDetail : String → Except Exc Dict
  mvDetail : String → Except Exc Dict

namespace NcmApiService

/-- `NcmApiService.resolve_short_url` (api_service.py lines 28-40): prefix
`https://` when no scheme, then one `requests.get` with redirects. -/
def resolve_short_url (env : Env) (url : String) : Except Exc String :=
  let url2 :=
    if strStartsWith url "http://" || strStartsWith url "https://" then url
    else "https://" ++ url
  env.shortGet url2

end NcmApiService

namespace ParserService

/-- `ParserService.resolve_short_url` (parser_service.py lines 14-31): strip,
resolve through the API service when the url mentions the short-link host;
only a `ShortUrlError` from the resolution is swallowed (falling through to
`return original_url`) — any other exception propagates. -/
def resolve_short_url (env : Env) (url : String) : Except Exc String :=
  let original := pyStrip url
  if strContainsSub original "163cn.tv" then
    match NcmApiService.resolve_short_url env original with
    | .ok resolved => .ok resolved
    | .error e => if e.isShortUrlError then .ok original else .error e
  else .ok original

/-- `ParserService.fetch_resource_info` (parser_service.py lines 33-56),
returning both the detail call-plan invocations it makes (kind and id) and
the outcome; the unsupported-type branch raises before any upstream call, so
its trace is empty. -/
def fetch_resource_info (env : Env) (rt : ResourceType) (id : String) :
    List (ResourceType × String) × Except Exc DomainModel :=
  match rt with
  | .SONG => ([(.SONG, id)], NcmApiService.get_info id (env.songDetail id)
      (fun d => (NcmApiService._map_song_info_to_model d).map DomainModel.song))
  | .ALBUM => ([(.ALBUM, id)], NcmApiService.get_info id (env.albumDetail id)
      (fun d => (NcmApiService._map_album_info_to_model d).map DomainModel.album))
  | .USER => ([(.USER, id)], NcmApiService.get_info id (env.userDetail id)
      (fun d => (NcmApiService._map_user_info_to_model d).map DomainModel.user))
  | .PLAYLIST => ([(.PLAYLIST, id)],
      NcmApiService.get_info id (env.playlistDetail id)
      (fun d => (NcmApiService._map_playlist_info_to_model d).map
        DomainModel.playlist))
  | .ARTIST => ([(.ARTIST, id)], NcmApiService.get_info id (env.artistDetail id)
      (fun d => (NcmApiService._map_artist_info_to_model d).map
        DomainModel.artist))
  | .MV => ([(.MV, id)], NcmApiService.get_info id (env.mvDetail id)
      (fun d => (NcmApiService._map_mv_info_to_model d).map DomainModel.mv))
  | .SHORT_URL => ([], .error (.unsupportedUrl
      ("不支持的资源类型: " ++ ResourceType.pyName .SHORT_URL)))

/-- How a run of the recursive `ParserService.parse` ends within a given
recursion budget: a model, a raised exception, or budget exhausted (the
source has no such budget — `fuelOut` marks that the recursion is still
going after `fuel` nested restarts of the pipeline). -/
inductive ParseOutcome where
  | ok (m : DomainModel)
  | err (e : Exc)
  | fuelOut

/-- `ParserService.parse` (parser_service.py lines 58-111), fuel-indexed:
strip; resolve the short link; classify the final url, falling back to the
original url once when classification fails with a `UrlParseError` (which
`UnsupportedUrlError` subclasses) and the urls differ — a second failure
raises `UrlParseError` carrying both urls, while with identical urls the
first failure is re-raised bare; a `SHORT_URL` classification re-resolves the
original url, raises `ShortUrlError` when that makes no progress, and
otherwise restarts the whole pipeline on the resolved url (the source bounds
this recursion by nothing but the no-progress check). -/
def parseFuel (env : Env) : Nat → String → ParseOutcome
  | 0, _ => .fuelOut
  | fuel + 1, url =>
      let original := pyStrip url
      match resolve_short_url env original with
      | .error e => .err e
      | .ok final =>
          let classified : Except Exc (ResourceType × String) :=
            match UrlParserRegistry.parse final with
            | .ok r => .ok r
            | .error e =>
                if e.isUrlParseError then
                  if final ≠ original then
                    match UrlParserRegistry.parse original with
                    | .ok r => .ok r
                    | .error e2 =>
                        if e2.isUrlParseError then
                          .error (.urlParse
                            ("无法从URL确定资源类型或ID: " ++ original ++
                              " (解析为: " ++ final ++ ")")
                            [("original_url", original), ("final_url", final)])
                        else .error e2
                  else .error e
                else .error e
          match classified with
          | .error e => .err e
          | .ok (rt, rid) =>
              if rt = .SHORT_URL then
                match resolve_short_url env original with
                | .error e => .err e
                | .ok resolved =>
                    if resolved = original then
                      .err (.shortUrl ("无法解析短链接: " ++ original)
                        [("url", original)])
                    else parseFuel env fuel resolved
              else
                match fetch_resource_info env rt rid with
                | (_, .ok m) => .ok m
                | (_, .error e) => .err e

end ParserService

/-- Detail-call outcomes for environments whose runs never reach the
aggregation step. -/
def envUnusedDetails : String → Except Exc Dict :=
  fun _ => .error (.pyExc "unused")

/-- A redirect loop between two distinct short links: resolving either one
yields the other, and every hop is again a short link. -/
def envHop : Env :=
  ⟨fun u => .ok (if u = "https://163cn.tv/a" then "163cn.tv/b"
      else "163cn.tv/a"),
    envUnusedDetails, envUnusedDetails, envUnusedDetails, envUnusedDetails,
    envUnusedDetails, envUnusedDetails⟩

/-- Short-link resolution that makes no progress: every request resolves to
the same short url. -/
def envSelfLoop : Env :=
  ⟨fun _ => .ok "163cn.tv/abc",
    envUnusedDetails, envUnusedDetails, envUnusedDetails, envUnusedDetails,
    envUnusedDetails, envUnusedDetails⟩

/-- Short-link resolution lands on a url no registered matcher accepts. -/
def envFallback : Env :=
  ⟨fun _ => .ok "https://nomatch.example/",
    envUnusedDetails, envUnusedDetails, envUnusedDetails, envUnusedDetails,
    envUnusedDetails, envUnusedDetails⟩

/-- The `requests.get` of short-link resolution raises a transport error. -/
def envNetFail : Env :=
  ⟨fun _ => .error (.pyExc "requests.exceptions.ConnectionError"),
    envUnusedDetails, envUnusedDetails, envUnusedDetails, envUnusedDetails,
    envUnusedDetails, envUnusedDetails⟩

theorem parseFuel_envHop_fuelOut : ∀ n : Nat,
    ParserService.parseFuel envHop n "163cn.tv/a" = .fuelOut ∧
    ParserService.parseFuel envHop n "163cn.tv/b" = .fuelOut := by
  intro n
  induction n with
  | zero => exact ⟨rfl, rfl⟩
  | succ n ih => exact ⟨ih.2, ih.1⟩

/-- Counterexample to C2 as stated: under `envHop` every resolution hop
yields another (distinct) short link; after 7 nested restarts of the
pipeline — more than the claimed cap of 5 — the recursion is still going and
no `ShortUrlError` (nor anything else) has been raised. -/
theorem short_link_depth_cap_counterexample :
    ParserService.parseFuel envHop 7 "163cn.tv/a" = .fuelOut
    ∧ ∀ e, ParserService.parseFuel envHop 7 "163cn.tv/a" ≠
        ParserService.ParseOutcome.err e := by
  constructor
  · rfl
  · intro e h
    have he : ParserService.parseFuel envHop 7 "163cn.tv/a" =
        ParserService.ParseOutcome.fuelOut := rfl
    rw [he] at h
    exact ParserService.ParseOutcome.noConfusion h

/-- Claim C2 (amended): the recursive short-link re-parsing has no depth
counter; the only termination guard is the no-progress check — a
re-resolution returning the original url unchanged raises `ShortUrlError` —
so when every hop resolves to a fresh short link (`envHop`) the recursion
restarts the pipeline beyond every bound without raising. -/
theorem short_link_recursion_amended :
    (∀ n, ParserService.parseFuel envHop n "163cn.tv/a" = .fuelOut)
    ∧ (∀ (env : Env) (fuel : Nat) (url rid : String),
        ParserService.resolve_short_url env (pyStrip url) =
          .ok (pyStrip url) →
        UrlParserRegistry.parse (pyStrip url) =
          .ok (ResourceType.SHORT_URL, rid) →
        ParserService.parseFuel env (fuel + 1) url =
          .err (.shortUrl ("无法解析短链接: " ++ pyStrip url)
            [("url", pyStrip url)])) := by
  constructor
  · intro n; exact (parseFuel_envHop_fuelOut n).1
  · intro env fuel url rid hres hcls
    conv_lhs => unfold ParserService.parseFuel
    simp [hres, hcls]

/-- Witness for the amended C2: a no-progress resolution raises
`ShortUrlError` carrying the url. -/
theorem short_link_recursion_amended_witness :
    ParserService.parseFuel envSelfLoop 1 "163cn.tv/abc" =
      .err (.shortUrl "无法解析短链接: 163cn.tv/abc"
        [("url", "163cn.tv/abc")]) := by
  have h := short_link_recursion_amended.2 envSelfLoop 0 "163cn.tv/abc" "abc"
    (by rfl) (by rfl)
  simpa using h

/-- Claim C4 (code-bug evidence): `ParserService.resolve_short_url` catches
only `ShortUrlError`, but `NcmApiService.resolve_short_url` raises raw
requests exceptions on network failure, so the failure propagates and the
original url is NOT returned — contradicting the fallback the code's own
log message ("将使用原始链接继续尝试解析") promises. -/
theorem resolve_short_url_network_failure_raises :
    ParserService.resolve_short_url envNetFail "163cn.tv/AbC123" =
      .error (.pyExc "requests.exceptions.ConnectionError")
    ∧ ∀ u, ParserService.resolve_short_url envNetFail "163cn.tv/AbC123" ≠
        .ok u := by
  constructor
  · rfl
  · intro u h
    have he : ParserService.resolve_short_url envNetFail "163cn.tv/AbC123" =
        .error (.pyExc "requests.exceptions.ConnectionError") := rfl
    rw [he] at h
    exact Except.noConfusion h

theorem registry_parse_error_kind (u : String) (e : Exc)
    (h : UrlParserRegistry.parse u = .error e) : e.isUrlParseError = true := by
  unfold UrlParserRegistry.parse at h
  cases hg : UrlParserRegistry.getParser u with
  | none =>
      simp only [hg] at h
      have he := Except.error.inj h
      rw [← he]
      rfl
  | some p =>
      simp only [hg] at h
      unfold RegexUrlParser.parse at h
      cases hs : p.search u with
      | none =>
          simp only [hs] at h
          have he := Except.error.inj h
          rw [← he]
          rfl
      | some rid =>
          simp only [hs] at h
          by_cases hr : rid = ""
          · rw [if_pos hr] at h
            have he := Except.error.inj h
            rw [← he]
            rfl
          · rw [if_neg hr] at h
            exact Except.noConfusion h

/-- Claim C9: when classification of the resolved url fails and the resolved
url differs from the (stripped) original, the orchestrator classifies the
original url; a second failure raises `UrlParseError` whose context carries
both urls; when resolved and original coincide, the first classification
failure is surfaced unchanged. -/
theorem classification_fallback (env : Env) (url : String) (fuel : Nat)
    (final : String) (e : Exc)
    (hres : ParserService.resolve_short_url env (pyStrip url) = .ok final)
    (hcls : UrlParserRegistry.parse final = .error e) :
    (final ≠ pyStrip url →
      ∀ e2, UrlParserRegistry.parse (pyStrip url) = .error e2 →
        ParserService.parseFuel env (fuel + 1) url =
          .err (.urlParse ("无法从URL确定资源类型或ID: " ++ pyStrip url ++
              " (解析为: " ++ final ++ ")")
            [("original_url", pyStrip url), ("final_url", final)]))
    ∧ (final = pyStrip url →
        ParserService.parseFuel env (fuel + 1) url = .err e) := by
  have hek := registry_parse_error_kind final e hcls
  constructor
  · intro hne e2 he2
    have hek2 := registry_parse_error_kind (pyStrip url) e2 he2
    conv_lhs => unfold ParserService.parseFuel
    simp [hres, hcls, he2, hek, hek2, hne]
  · intro heq
    subst heq
    conv_lhs => unfold ParserService.parseFuel
    simp [hres, hcls, hek]

/-- Witness for C9: both branches at concrete inputs.  `163cn.tv/` (no path
id) resolves under `envFallback` to an unclassifiable url and itself fails
classification, raising `UrlParseError` with both urls in context; `hello`
resolves to itself and the single `UnsupportedUrlError` surfaces
unchanged. -/
theorem classification_fallback_witness :
    ParserService.parseFuel envFallback 1 "163cn.tv/" =
      .err (.urlParse
        "无法从URL确定资源类型或ID: 163cn.tv/ (解析为: https://nomatch.example/)"
        [("original_url", "163cn.tv/"),
          ("final_url", "https://nomatch.example/")])
    ∧ ParserService.parseFuel envFallback 1 "hello" =
      .err (.unsupportedUrl "不支持的URL格式: hello") := by
  constructor
  · have h := (classification_fallback envFallback "163cn.tv/" 0
      "https://nomatch.example/"
      (.unsupportedUrl "不支持的URL格式: https://nomatch.example/")
      (by rfl) (by rfl)).1 (by decide)
      (.unsupportedUrl "不支持的URL格式: 163cn.tv/") (by rfl)
    simpa using h
  · have h := (classification_fallback envFallback "hello" 0 "hello"
      (.unsupportedUrl "不支持的URL格式: hello") (by rfl) (by rfl)).2 (by rfl)
    simpa using h

/-- Claim C10: for every resource type that is not one of the six aggregated
kinds — in the enumeration, only `SHORT_URL` — `fetch_resource_info` raises
`UnsupportedUrlError` and its upstream call trace is empty. -/
theorem fetch_unsupported_kind (env : Env) (id : String) (rt : ResourceType)
    (h : rt ∉ [ResourceType.SONG, ResourceType.ALBUM, ResourceType.USER,
      ResourceType.PLAYLIST, ResourceType.ARTIST, ResourceType.MV]) :
    ParserService.fetch_resource_info env rt id =
      ([], .error (.unsupportedUrl ("不支持的资源类型: " ++ rt.pyName))) := by
  cases rt <;> simp_all [ParserService.fetch_resource_info, ResourceType.pyName]

/-- Witness for C10: fetching a `SHORT_URL` "resource" raises without any
upstream call. -/
theorem fetch_unsupported_kind_witness :
    ParserService.fetch_resource_info envFallback ResourceType.SHORT_URL "123" =
      ([], .error
        (.unsupportedUrl "不支持的资源类型: ResourceType.SHORT_URL")) := by
  have h := fetch_unsupported_kind envFallback "123" ResourceType.SHORT_URL
    (by decide)
  simpa using h

/-- The required fields of the song mapping and their coercions, read off the
non-defaulted lookups of `_map_song_info_to_model`: `str()` never fails, so
for `id`/`name` presence suffices; `ar` must be `list()`-able, `al`
`dict()`-able, and the four counters `int()`-able. -/
def songRequiredOk (info : Dict) : Bool :=
  (dlookup info "id").isSome &&
  (dlookup info "name").isSome &&
  ((dlookup info "ar").bind pyList).isSome &&
  ((dlookup info "al").bind pyDict).isSome &&
  ((dlookup info "publishTime").bind pyInt).isSome &&
  ((dlookup info "dt").bind pyInt).isSome &&
  ((dlookup info "commentCount").bind pyInt).isSome &&
  ((dlookup info "shareCount").bind pyInt).isSome

theorem songRequired_of_ok (payload : Dict) (m : SongInfo)
    (h : NcmApiService._map_song_info_to_model payload = .ok m) :
    songRequiredOk payload = true := by
  unfold NcmApiService._map_song_info_to_model reqStr reqInt reqList reqDict
    optDict optList asInt asList asDict pyGetItem at h
  simp only [Bind.bind, Except.bind, Except.map] at h
  unfold songRequiredOk
  repeat' split at h
  all_goals try exact Except.noConfusion h
  simp only [Bool.and_eq_true]
  refine ⟨⟨⟨⟨⟨⟨⟨?_, ?_⟩, ?_⟩, ?_⟩, ?_⟩, ?_⟩, ?_⟩, ?_⟩
  · cases hid : dlookup payload "id" with
    | none => simp_all
    | some v => simp [hid]
  · cases hnm : dlookup payload "name" with
    | none => simp_all
    | some v => simp [hnm]
  · cases har : dlookup payload "ar" with
    | none => simp_all
    | some w =>
        cases hl : pyList w with
        | none => simp_all
        | some xs => simp [hl, Option.bind]
  · cases hal : dlookup payload "al" with
    | none => simp_all
    | some w =>
        cases hl : pyDict w with
        | none => simp_all
        | some d => simp [hl, Option.bind]
  · cases hpt : dlookup payload "publishTime" with
    | none => simp_all
    | some w =>
        cases hl : pyInt w with
        | none => simp_all
        | some n => simp [hl, Option.bind]
  · cases hdt : dlookup payload "dt" with
    | none => simp_all
    | some w =>
        cases hl : pyInt w with
        | none => simp_all
        | some n => simp [hl, Option.bind]
  · cases hcc : dlookup payload "commentCount" with
    | none => simp_all
    | some w =>
        cases hl : pyInt w with
        | none => simp_all
        | some n => simp [hl, Option.bind]
  · cases hsc : dlookup payload "shareCount" with
    | none => simp_all
    | some w =>
        cases hl : pyInt w with
        | none => simp_all
        | some n => simp [hl, Option.bind]

theorem song_optional_defaults (payload : Dict) (m : SongInfo)
    (h : NcmApiService._map_song_info_to_model payload = .ok m) :
    (dlookup payload "lyricUser" = none → m.lyricUser = [])
    ∧ (dlookup payload "transUser" = none → m.transUser = []) := by
  unfold NcmApiService._map_song_info_to_model reqStr reqInt reqList reqDict
    optDict optList asInt asList asDict pyGetItem at h
  simp only [Bind.bind, Except.bind, Except.map] at h
  repeat' split at h
  all_goals try exact Except.noConfusion h
  constructor
  · intro hlu
    simp_all [pyDict, pure, Except.pure]
    rw [← h]
  · intro htu
    simp_all [pyDict, pure, Except.pure]
    rw [← h]

/-- A merged song payload with every required field present and both uploader
mappings absent. -/
def songFullPayload : Dict :=
  [("id", Value.int 1), ("name", Value.str "n"), ("ar", Value.list []),
    ("al", Value.dict []), ("publishTime", Value.int 0),
    ("dt", Value.int 0), ("commentCount", Value.int 0),
    ("shareCount", Value.int 0)]

/-- The model `_map_song_info_to_model` builds from `songFullPayload`. -/
def songFullModel : SongInfo :=
  ⟨"1", "n", [], [], 0, 0, 0, 0, [], [], [], [], []⟩

/-- Claim C3: a merged song payload whose required field (e.g. `name`) is
missing or uncoercible makes the field-by-field mapping abort, and
`get_info` raises an error referencing the resource id — no partial or
defaulted model is returned; the optional lyric/translation uploader
mappings instead default to an empty mapping when absent. -/
theorem song_mapping_strict (id : String) (payload : Dict) :
    (songRequiredOk payload = false →
      ∃ e, NcmApiService.get_info id (.ok payload)
          (fun d => (NcmApiService._map_song_info_to_model d).map
            DomainModel.song) =
        .error (.responseErr id (some e)))
    ∧ (∀ m, NcmApiService._map_song_info_to_model payload = .ok m →
        ((dlookup payload "lyricUser" = none → m.lyricUser = [])
         ∧ (dlookup payload "transUser" = none → m.transUser = []))) := by
  constructor
  · intro hreq
    cases hmap : NcmApiService._map_song_info_to_model payload with
    | ok m =>
        have hok := songRequired_of_ok payload m hmap
        rw [hok] at hreq
        exact Bool.noConfusion hreq
    | error e =>
        refine ⟨e, ?_⟩
        unfold NcmApiService.get_info
        simp [hmap, Except.map]
  · intro m hm
    exact song_optional_defaults payload m hm

/-- Witness for C3 (spec Scenario E): a payload missing `name` aborts with an
error carrying the song id; a complete payload without uploader metadata maps
to a model whose uploader fields are empty. -/
theorem song_mapping_strict_witness :
    songRequiredOk [("id", Value.int 5)] = false
    ∧ NcmApiService.get_info "5" (.ok [("id", Value.int 5)])
        (fun d => (NcmApiService._map_song_info_to_model d).map
          DomainModel.song) =
      .error (.responseErr "5" (some (.pyExc "KeyError: name")))
    ∧ NcmApiService._map_song_info_to_model songFullPayload =
        .ok songFullModel
    ∧ songFullModel.lyricUser = [] := by
  obtain ⟨_e, _he⟩ := (song_mapping_strict "5" [("id", Value.int 5)]).1
    (by decide)
  have h2 := (song_mapping_strict "5" songFullPayload).2 songFullModel
    (by rfl)
  exact ⟨by decide, by rfl, by rfl, h2.1 (by rfl)⟩

end ParseNcm
